import Mathlib

/-!
Verification of the gesture-to-text input engine of the kharazmi repository
(`src/core/vision_manager.py`, class `VisionThread`).

The engine is shallowly embedded below:
* keyboard geometry and hit test follow `create_keyboard_layout`,
  `draw_keyboard` and the scanning loop of `detect_key_press`;
* the dwell (debounce) state machine follows the tail of `detect_key_press`
  over the instance fields `current_key` / `key_start_time` / `key_emitted`;
* word/sentence assembly follows the key-handling block of `run` over the
  fields `current_word` / `sentence` / `last_word_time` / `text_emitted`;
* the frame loop of `run` (camera open, frame read, error emission,
  `finally` resource release) is embedded as a function over a finite trace
  of device responses.

Timestamps are rationals (Python `time.time()` floats); pixel coordinates
are integers; Python floor division `//` is `Int.fdiv` (for the operands
that are provably non-negative, plain natural division is used, which
agrees with Python).  Python truthiness of `key_start_time` (`None` and
`0.0` are falsy) is modelled explicitly.
-/

/-- The static key table of `create_keyboard_layout` (five rows). -/
def create_keyboard_layout : List (List String) :=
  [["1", "2", "3", "4", "5", "6", "7", "8", "9", "0"],
   ["q", "w", "e", "r", "t", "y", "u", "i", "o", "p"],
   ["a", "s", "d", "f", "g", "h", "j", "k", "l"],
   ["z", "x", "c", "v", "b", "n", "m"],
   ["(", ")", "\"", "\x27", "SE", "ET", "BC"]]

/-- `key_height = height // (len(keys) + 4)` from `draw_keyboard` /
`detect_key_press` (the layout has 5 rows, so the divisor is 9). -/
def key_height (height : ℕ) : ℕ := height / (create_keyboard_layout.length + 4)

/-- `key_width = width // 12`. -/
def key_width (width : ℕ) : ℕ := width / 12

/-- `keyboard_y = height - (len(keys) * key_height) - 20`; may be negative
for tiny frames, hence an integer. -/
def keyboard_y (height : ℕ) : ℤ :=
  (height : ℤ) - (create_keyboard_layout.length : ℤ) * (key_height height : ℤ) - 20

/-- `start_x = (width - row_width) // 2` for a row of `rowLen` keys
(`row_width = len(row) * key_width`); Python floor division. -/
def rowStartX (width rowLen : ℕ) : ℤ :=
  Int.fdiv ((width : ℤ) - (rowLen : ℤ) * (key_width width : ℤ)) 2

/-- Width multiplier from `draw_keyboard`: 2 for the special keys
`SE`/`ET`/`BC`, 1 otherwise. -/
def key_width_multiplier (key : String) : ℕ :=
  if key = "SE" ∨ key = "ET" ∨ key = "BC" then 2 else 1

/-- The strict containment test of `detect_key_press`
(`key_x < x < key_x + key_width - 5 and key_y < y < key_y + key_height - 5`)
for the key in row `i`, column `j` of a row with `rowLen` keys.  Note that
the hit test uses the plain `key_width` for every key: the width multiplier
of `draw_keyboard` is not applied here. -/
def hitRegion (width height rowLen i j : ℕ) (x y : ℤ) : Bool :=
  decide (rowStartX width rowLen + (j : ℤ) * (key_width width : ℤ) < x ∧
          x < rowStartX width rowLen + (j : ℤ) * (key_width width : ℤ)
              + (key_width width : ℤ) - 5 ∧
          keyboard_y height + (i : ℤ) * (key_height height : ℤ) < y ∧
          y < keyboard_y height + (i : ℤ) * (key_height height : ℤ)
              + (key_height height : ℤ) - 5)

/-- The row-major scanning loop of `detect_key_press` with its double
`break`: the first key whose (inset) cell strictly contains the point. -/
def hitTest (width height : ℕ) (x y : ℤ) : Option String :=
  create_keyboard_layout.enum.findSome? fun row =>
    row.2.enum.findSome? fun kk =>
      if hitRegion width height row.2.length row.1 kk.1 x y then some kk.2 else none

/-- An axis-aligned rectangle given by its two corners, as passed to
`cv2.rectangle` in `draw_keyboard`. -/
structure Rect where
  x1 : ℤ
  y1 : ℤ
  x2 : ℤ
  y2 : ℤ
deriving DecidableEq, Repr

/-- The rectangle `draw_keyboard` draws for the key `key` in row `i`,
column `j` of a row with `rowLen` keys: corners `(x, y)` and
`(x + key_width * multiplier - 5, y + key_height - 5)`. -/
def drawRect (width height rowLen i j : ℕ) (key : String) : Rect :=
  { x1 := rowStartX width rowLen + (j : ℤ) * (key_width width : ℤ)
    y1 := keyboard_y height + (i : ℤ) * (key_height height : ℤ)
    x2 := rowStartX width rowLen + (j : ℤ) * (key_width width : ℤ)
          + (key_width width : ℤ) * (key_width_multiplier key : ℤ) - 5
    y2 := keyboard_y height + (i : ℤ) * (key_height height : ℤ)
          + (key_height height : ℤ) - 5 }

/-- Membership in a drawn rectangle (both corners inclusive). -/
def rectContains (r : Rect) (x y : ℤ) : Bool :=
  decide (r.x1 ≤ x ∧ x ≤ r.x2 ∧ r.y1 ≤ y ∧ y ≤ r.y2)

/-- The dwell-detector fields of `VisionThread`
(`current_key`, `key_start_time`, `key_emitted`). -/
structure DwellState where
  current_key : Option String
  key_start_time : Option ℚ
  key_emitted : Bool
deriving DecidableEq, Repr

/-- `self.key_press_cooldown = 3.0` — the dwell threshold in seconds. -/
def key_press_cooldown : ℚ := 3

/-- Initial dwell state from `__init__`. -/
def initDwellState : DwellState := ⟨none, none, false⟩

/-- The timing tail of `detect_key_press` (its final `if current_key:`
block), driven by the hit-test result `hit` and the current wall-clock
time `now`.  Python truthiness of `key_start_time` (`None` or `0.0`) is
modelled by the `none` and `t0 = 0` cases. -/
def dwellStep (s : DwellState) (hit : Option String) (now : ℚ) :
    DwellState × Option String :=
  match hit with
  | some k =>
    if s.current_key = some k then
      match s.key_start_time with
      | none => ({ s with key_start_time := some now }, none)
      | some t0 =>
        if t0 = 0 then ({ s with key_start_time := some now }, none)
        else if key_press_cooldown ≤ now - t0 ∧ s.key_emitted = false then
          ({ s with key_emitted := true }, some k)
        else (s, none)
    else
      ({ current_key := some k, key_start_time := some now, key_emitted := false }, none)
  | none =>
    ({ current_key := none, key_start_time := none, key_emitted := false }, none)

/-- `detect_key_press`: with no hand landmarks it clears `current_key` and
`key_start_time` (but not `key_emitted`) and returns `None`; with a
fingertip at pixel `p` it runs the hit test and the dwell step. -/
def detect_key_press (width height : ℕ) (s : DwellState)
    (sample : Option (ℤ × ℤ)) (now : ℚ) : DwellState × Option String :=
  match sample with
  | none =>
    ({ current_key := none, key_start_time := none, key_emitted := s.key_emitted }, none)
  | some p => dwellStep s (hitTest width height p.1 p.2) now

/-- Per-frame hand-tracking outcome: no hand detected, or an index
fingertip at a pixel position. -/
inductive HandInput where
  | absent : HandInput
  | tip (p : ℤ × ℤ) : HandInput
deriving DecidableEq, Repr

/-- The dwell-relevant part of one `run` iteration, folded over a trace of
frames: `detect_key_press` is invoked only when `results.multi_hand_landmarks`
is non-empty (`run`, the `if results.multi_hand_landmarks:` guard); on a
frame with no hand the dwell state is left untouched.  Returns the final
state and the list of confirmed (returned) keys in order. -/
def runDwell (width height : ℕ) (s : DwellState) :
    List (HandInput × ℚ) → DwellState × List String
  | [] => (s, [])
  | (HandInput.absent, _) :: rest => runDwell width height s rest
  | (HandInput.tip p, t) :: rest =>
    let r := detect_key_press width height s (some p) t
    let c := runDwell width height r.1 rest
    (c.1, r.2.toList ++ c.2)

/-- The word/sentence assembly fields of `VisionThread`
(`current_word`, `sentence`, `last_word_time`, `text_emitted`). -/
structure TextState where
  current_word : String
  sentence : String
  last_word_time : ℚ
  text_emitted : Bool
deriving DecidableEq, Repr

/-- Initial text state from `__init__` (`current_word = ""`,
`sentence = ""`, `last_word_time = 0`, `text_emitted = False`). -/
def initTextState : TextState := ⟨"", "", 0, false⟩

/-- Helper for `pySplit`: scan the characters, collecting the maximal runs
of non-whitespace characters (`acc` holds the current run, reversed). -/
def splitWsAux : List Char → List Char → List String
  | [], acc => if acc.isEmpty then [] else [String.mk acc.reverse]
  | c :: cs, acc =>
    if c.isWhitespace then
      if acc.isEmpty then splitWsAux cs []
      else String.mk acc.reverse :: splitWsAux cs []
    else splitWsAux cs (c :: acc)

/-- Python `str.split()` with no argument: the maximal whitespace-free
runs of the string, in order (empty pieces discarded). -/
def pySplit (s : String) : List String := splitWsAux s.toList []

/-- The key-handling block of `run` (the `if key:` chain): `SE` commits the
current word into `sentence` (no separator is added to `sentence`; a word
event and a literal space event are emitted) when `current_word` is
non-empty and `text_emitted` is clear; `ET` likewise commits when that
guard holds, always emits a newline event, clears `sentence` and sets
`text_emitted`; `BC` drops the last character of a non-empty
`current_word`, else removes the last whitespace-delimited token of a
non-empty `sentence` and emits the updated sentence, and always sets
`text_emitted`; any other key is appended to `current_word`, refreshing
`last_word_time` and clearing `text_emitted`.  Returns the new state and
the `key_pressed` emissions in order. -/
def handleKey (ts : TextState) (key : String) (now : ℚ) : TextState × List String :=
  if key = "SE" then
    if ts.current_word ≠ "" ∧ ts.text_emitted = false then
      ({ current_word := "", sentence := ts.sentence ++ ts.current_word,
         last_word_time := ts.last_word_time, text_emitted := true },
       [ts.current_word, " "])
    else (ts, [])
  else if key = "ET" then
    if ts.current_word ≠ "" ∧ ts.text_emitted = false then
      ({ current_word := "", sentence := "",
         last_word_time := ts.last_word_time, text_emitted := true },
       [ts.current_word, "\n"])
    else
      ({ ts with sentence := "", text_emitted := true }, ["\n"])
  else if key = "BC" then
    if ts.current_word ≠ "" then
      ({ ts with current_word := ts.current_word.dropRight 1, text_emitted := true },
       ["backspace"])
    else if ts.sentence ≠ "" then
      if pySplit ts.sentence ≠ [] then
        let s2 := String.intercalate " " (pySplit ts.sentence).dropLast
        ({ ts with sentence := s2, text_emitted := true }, [s2])
      else ({ ts with text_emitted := true }, [])
    else ({ ts with text_emitted := true }, [])
  else
    ({ ts with current_word := ts.current_word ++ key,
               last_word_time := now,
               text_emitted := false }, [])

/-- The per-iteration inactivity check of `run`
(`if self.current_word and time.time() - self.last_word_time > 2 and not
self.text_emitted:`): commit `current_word` to `sentence` (again with no
separator), emit the word, clear the word and set `text_emitted`. -/
def inactivity_check (ts : TextState) (now : ℚ) : TextState × List String :=
  if ts.current_word ≠ "" ∧ 2 < now - ts.last_word_time ∧ ts.text_emitted = false then
    ({ current_word := "", sentence := ts.sentence ++ ts.current_word,
       last_word_time := ts.last_word_time, text_emitted := true },
     [ts.current_word])
  else (ts, [])

/-- One full `run` loop iteration on a successfully read frame: the dwell
detector runs only when a hand was detected; a confirmed key is fed to the
key-handling block; the inactivity check runs on every iteration. -/
def loopIter (width height : ℕ) (ds : DwellState) (ts : TextState)
    (inp : HandInput) (now : ℚ) : DwellState × TextState × List String :=
  match inp with
  | HandInput.absent =>
    let r := inactivity_check ts now
    (ds, r.1, r.2)
  | HandInput.tip p =>
    let d := detect_key_press width height ds (some p) now
    let h := match d.2 with
      | some key => handleKey ts key now
      | none => (ts, [])
    let r := inactivity_check h.1 now
    (d.1, r.1, h.2 ++ r.2)

/-- One device response per `run` loop iteration: a frame was read (with
the hand-tracking outcome and the wall-clock time of the iteration), the
frame read failed (`ret` false), or an exception was raised while
processing the iteration. -/
inductive DevEvent where
  | okFrame (inp : HandInput) (now : ℚ)
  | readFail
  | raiseExn
deriving DecidableEq, Repr

/-- `true` for a successfully read frame. -/
def DevEvent.isOk : DevEvent → Bool
  | DevEvent.okFrame _ _ => true
  | _ => false

/-- Outcome of the `while self.running` loop of `run`. -/
structure LoopOut where
  dwell : DwellState
  text : TextState
  events : List String
  errors : ℕ
  frames : ℕ
deriving DecidableEq, Repr

/-- The `while self.running` loop of `run` over a finite trace of device
responses (the trace ends when the stop flag is observed).  A failed frame
read emits one error event and breaks out of the loop; an exception
propagates out of the loop to the `except` clause, which emits one error
event; in both cases the remaining trace is never read (no retry). -/
def runLoop (width height : ℕ) (ds : DwellState) (ts : TextState) :
    List DevEvent → LoopOut
  | [] => ⟨ds, ts, [], 0, 0⟩
  | DevEvent.readFail :: _ => ⟨ds, ts, [], 1, 0⟩
  | DevEvent.raiseExn :: _ => ⟨ds, ts, [], 1, 0⟩
  | DevEvent.okFrame inp now :: rest =>
    let r := loopIter width height ds ts inp now
    let c := runLoop width height r.1 r.2.1 rest
    ⟨c.dwell, c.text, r.2.2 ++ c.events, c.errors, c.frames + 1⟩

/-- Overall outcome of `run`: final engine state, `key_pressed` emissions,
number of `error_occurred` emissions, number of frames processed, and
whether the camera handle was released and the landmark detector closed. -/
structure RunResult where
  dwell : DwellState
  text : TextState
  events : List String
  errors : ℕ
  frames : ℕ
  capReleased : Bool
  handsClosed : Bool
deriving DecidableEq, Repr

/-- The `finally` clause of `run`: `self.cap.release()` (the capture object
exists whenever the `try` body ran past construction) and
`self.hands.close()`. -/
def finallyBlock (r : RunResult) : RunResult :=
  { r with capReleased := true, handsClosed := true }

/-- `run`: `openOk` is whether the camera opened (after the `CAP_V4L2`
then `CAP_ANY` attempts); on failure one error event is emitted and the
method returns before the loop; otherwise the loop runs over the device
trace.  Every exit path goes through the `finally` clause. -/
def runModel (width height : ℕ) (openOk : Bool) (ds : DwellState)
    (ts : TextState) (trace : List DevEvent) : RunResult :=
  if openOk then
    let o := runLoop width height ds ts trace
    finallyBlock ⟨o.dwell, o.text, o.events, o.errors, o.frames, false, false⟩
  else
    finallyBlock ⟨ds, ts, [], 1, 0, false, false⟩

/-! ## Dwell-machine lemmas -/

/-- Stepping on the key already confirmed (`key_emitted = true`) changes
nothing and emits nothing. -/
theorem dwellStep_same_key_emitted (K : String) (t0 t : ℚ) (ht0 : t0 ≠ 0) :
    dwellStep ⟨some K, some t0, true⟩ (some K) t = (⟨some K, some t0, true⟩, none) := by
  simp [dwellStep, ht0]

/-- Stepping on the current candidate before emission either confirms (at
or past the threshold) or waits. -/
theorem dwellStep_same_key_waiting (K : String) (t0 t : ℚ) (ht0 : t0 ≠ 0) :
    dwellStep ⟨some K, some t0, false⟩ (some K) t
      = if (3 : ℚ) ≤ t - t0 then (⟨some K, some t0, true⟩, some K)
        else (⟨some K, some t0, false⟩, none) := by
  simp [dwellStep, ht0, key_press_cooldown]

/-- Stepping on a key different from the current candidate restarts the
timer on the new key. -/
theorem dwellStep_new_key (s : DwellState) (K : String) (t : ℚ)
    (h : s.current_key ≠ some K) :
    dwellStep s (some K) t = (⟨some K, some t, false⟩, none) := by
  simp [dwellStep, h]

/-- A tracked fingertip that misses every key resets the whole dwell
state, including `key_emitted`. -/
theorem dwellStep_miss (s : DwellState) (t : ℚ) :
    dwellStep s none t = (⟨none, none, false⟩, none) := rfl

/-- Unfolding lemma for `runDwell` on a frame with a tracked fingertip. -/
theorem runDwell_cons_tip (width height : ℕ) (s : DwellState) (p : ℤ × ℤ) (t : ℚ)
    (rest : List (HandInput × ℚ)) :
    runDwell width height s ((HandInput.tip p, t) :: rest)
      = ((runDwell width height (detect_key_press width height s (some p) t).1 rest).1,
         (detect_key_press width height s (some p) t).2.toList
           ++ (runDwell width height (detect_key_press width height s (some p) t).1 rest).2) :=
  rfl

/-- After confirmation, any further frames on the same key leave the state
unchanged and emit nothing. -/
theorem runDwell_after_emit (width height : ℕ) (K : String) (t0 : ℚ) (ht0 : t0 ≠ 0)
    (tr : List ((ℤ × ℤ) × ℚ))
    (htr : ∀ e ∈ tr, hitTest width height e.1.1 e.1.2 = some K) :
    runDwell width height ⟨some K, some t0, true⟩
        (tr.map fun e => (HandInput.tip e.1, e.2))
      = (⟨some K, some t0, true⟩, []) := by
  induction tr with
  | nil => rfl
  | cons e rest ih =>
    obtain ⟨p, t⟩ := e
    have hp : hitTest width height p.1 p.2 = some K := htr _ (List.mem_cons_self _ _)
    have hrest : ∀ x ∈ rest, hitTest width height x.1.1 x.1.2 = some K :=
      fun x hx => htr x (List.mem_cons_of_mem _ hx)
    simp [runDwell, detect_key_press, hp, dwellStep_same_key_emitted K t0 t ht0, ih hrest]

/-- While a candidate with start time `t0` is held (not yet emitted),
feeding frames on the same key yields exactly one emission precisely when
some frame reaches the 3-second threshold, and the start time never
moves. -/
theorem runDwell_hold_phase (width height : ℕ) (K : String) (t0 : ℚ) (ht0 : t0 ≠ 0)
    (tr : List ((ℤ × ℤ) × ℚ))
    (htr : ∀ e ∈ tr, hitTest width height e.1.1 e.1.2 = some K) :
    runDwell width height ⟨some K, some t0, false⟩
        (tr.map fun e => (HandInput.tip e.1, e.2))
      = (⟨some K, some t0, tr.any fun e => decide ((3 : ℚ) ≤ e.2 - t0)⟩,
         if tr.any (fun e => decide ((3 : ℚ) ≤ e.2 - t0)) then [K] else []) := by
  induction tr with
  | nil => rfl
  | cons e rest ih =>
    obtain ⟨p, t⟩ := e
    have hp : hitTest width height p.1 p.2 = some K := htr _ (List.mem_cons_self _ _)
    have hrest : ∀ x ∈ rest, hitTest width height x.1.1 x.1.2 = some K :=
      fun x hx => htr x (List.mem_cons_of_mem _ hx)
    by_cases hth : (3 : ℚ) ≤ t - t0
    · simp [runDwell, detect_key_press, hp, dwellStep_same_key_waiting K t0 t ht0, hth,
        runDwell_after_emit width height K t0 ht0 rest hrest]
    · have hd : decide ((3 : ℚ) ≤ t - t0) = false := by simp [hth]
      simp only [List.map_cons, runDwell, detect_key_press, hp,
        dwellStep_same_key_waiting K t0 t ht0, if_neg hth, ih hrest, List.any_cons, hd,
        Bool.false_or, Option.toList_none, List.nil_append]

/-- From any state not already tracking `K`, a first frame on `K` at time
`t0` followed by frames on `K` emits `K` exactly when some later frame is
at least 3 seconds after `t0`. -/
theorem runDwell_fresh_hold (width height : ℕ) (K : String) (p0 : ℤ × ℤ) (t0 : ℚ)
    (s : DwellState) (hs : s.current_key ≠ some K)
    (h0 : hitTest width height p0.1 p0.2 = some K) (ht0 : t0 ≠ 0)
    (tr : List ((ℤ × ℤ) × ℚ))
    (htr : ∀ e ∈ tr, hitTest width height e.1.1 e.1.2 = some K) :
    runDwell width height s
        ((HandInput.tip p0, t0) :: tr.map fun e => (HandInput.tip e.1, e.2))
      = (⟨some K, some t0, tr.any fun e => decide ((3 : ℚ) ≤ e.2 - t0)⟩,
         if tr.any (fun e => decide ((3 : ℚ) ≤ e.2 - t0)) then [K] else []) := by
  simp [runDwell, detect_key_press, h0, dwellStep_new_key s K t0 hs,
    runDwell_hold_phase width height K t0 ht0 tr htr]

/-- C1.  For every key `K` and every sequence of fingertip samples that
land on `K` continuously, starting from the idle state the detector emits
`K` exactly once — the emitted list over the whole trace is `[K]` as soon
as some sample is at least 3.0 seconds after the first contact time `t0`,
and `[]` before that — and never again on later samples of the same
uninterrupted hold.  Instantiating `tr` with each prefix of the hold shows
the single emission happens at the first sample whose elapsed hold time
reaches the threshold.  (`t0 ≠ 0` reflects that `time.time()` is a
positive wall-clock value; at `t0 = 0` Python's falsiness of `0.0` would
restart the timer.) -/
theorem c1_dwell_confirmation (width height : ℕ) (K : String) (p0 : ℤ × ℤ) (t0 : ℚ)
    (tr : List ((ℤ × ℤ) × ℚ))
    (h0 : hitTest width height p0.1 p0.2 = some K) (ht0 : t0 ≠ 0)
    (htr : ∀ e ∈ tr, hitTest width height e.1.1 e.1.2 = some K) :
    (runDwell width height initDwellState
        ((HandInput.tip p0, t0) :: tr.map fun e => (HandInput.tip e.1, e.2))).2
      = if tr.any (fun e => decide ((3 : ℚ) ≤ e.2 - t0)) then [K] else [] := by
  have h := runDwell_fresh_hold width height K p0 t0 initDwellState
    (by simp [initDwellState]) h0 ht0 tr htr
  simp [h]

/-- Witness for C1: holding `q` (fingertip pixel `(150, 400)` on a
1280×720 frame) from time 1 with samples at times 2 and 5 emits `q`
exactly once (the sample at time 5 is the first past the 3-second
threshold). -/
theorem c1_dwell_confirmation_witness :
    (runDwell 1280 720 initDwellState
        [(HandInput.tip (150, 400), 1), (HandInput.tip (150, 400), 2),
         (HandInput.tip (150, 400), 5)]).2 = ["q"] := by
  have h := c1_dwell_confirmation 1280 720 "q" (150, 400) 1
    [((150, 400), 2), ((150, 400), 5)] (by decide) (by norm_num)
    (by intro e he; fin_cases he <;> decide)
  exact h.trans (by norm_num [List.any_cons])

/-- C3 counterexample.  Trace: fingertip on `q` at time 1, hand lost at
time 2, fingertip back on `q` at time 5.  Under the claim the no-hand
iteration would reset the dwell state to idle, so no emission could happen
before a fresh 3-second hold (time 8); instead the run loop leaves the
state untouched (candidate `q` with start time 1 survives) and the sample
at time 5 is treated as a 4-second continuous dwell, emitting `q`. -/
theorem c3_reset_on_hand_loss_cex :
    runDwell 1280 720 initDwellState
        [(HandInput.tip (150, 400), 1), (HandInput.absent, 2), (HandInput.tip (150, 400), 5)]
      = (⟨some "q", some 1, true⟩, ["q"]) ∧
    (runDwell 1280 720 initDwellState
        [(HandInput.tip (150, 400), 1), (HandInput.absent, 2)]).1
      = ⟨some "q", some 1, false⟩ := by
  have h1 : hitTest 1280 720 150 400 = some "q" := by decide
  have e1 : dwellStep initDwellState (some "q") 1 = (⟨some "q", some 1, false⟩, none) :=
    dwellStep_new_key _ _ _ (by simp [initDwellState])
  have e2 : dwellStep ⟨some "q", some 1, false⟩ (some "q") 5
      = (⟨some "q", some 1, true⟩, some "q") := by
    rw [dwellStep_same_key_waiting "q" 1 5 one_ne_zero]
    norm_num
  constructor
  · simp [runDwell, detect_key_press, h1, e1, e2]
  · simp [runDwell, detect_key_press, h1, e1]

/-- C3 (amended).  On a loop iteration with no hand detected the run loop
does not invoke `detect_key_press` at all, so the dwell state is left
completely unchanged (not reset); and even `detect_key_press` itself, when
called with no landmarks, clears only `current_key` and `key_start_time`,
never the already-emitted flag.  Hence a hold interrupted by loss of
tracking can still count as one continuous dwell. -/
theorem c3_reset_on_hand_loss_amended (width height : ℕ) (s : DwellState) (t : ℚ) :
    runDwell width height s [(HandInput.absent, t)] = (s, []) ∧
    (detect_key_press width height s none t).1 = ⟨none, none, s.key_emitted⟩ :=
  ⟨rfl, rfl⟩

/-- C5 counterexample.  After `q` is confirmed at time 4, the hand leaves
the frame entirely (no sample at time 5) and returns to `q`, holding it
continuously from time 6 to time 100 — a fresh 94-second hold, far beyond
the 3-second threshold.  The claim predicts a second emission of `q`; the
code emits nothing for the second hold (the whole trace emits `q` exactly
once), because the hand-absent iteration never cleared `key_emitted`. -/
theorem c5_release_rearms_cex :
    (runDwell 1280 720 initDwellState
        [(HandInput.tip (150, 400), 1), (HandInput.tip (150, 400), 4), (HandInput.absent, 5),
         (HandInput.tip (150, 400), 6), (HandInput.tip (150, 400), 100)]).2 = ["q"] := by
  have h1 : hitTest 1280 720 150 400 = some "q" := by decide
  have e1 : dwellStep initDwellState (some "q") 1 = (⟨some "q", some 1, false⟩, none) :=
    dwellStep_new_key _ _ _ (by simp [initDwellState])
  have e2 : dwellStep ⟨some "q", some 1, false⟩ (some "q") 4
      = (⟨some "q", some 1, true⟩, some "q") := by
    rw [dwellStep_same_key_waiting "q" 1 4 one_ne_zero]
    norm_num
  have e3 : dwellStep ⟨some "q", some 1, true⟩ (some "q") 6
      = (⟨some "q", some 1, true⟩, none) := dwellStep_same_key_emitted "q" 1 6 one_ne_zero
  have e4 : dwellStep ⟨some "q", some 1, true⟩ (some "q") 100
      = (⟨some "q", some 1, true⟩, none) := dwellStep_same_key_emitted "q" 1 100 one_ne_zero
  simp [runDwell, detect_key_press, h1, e1, e2, e3, e4]

/-- C5 (amended).  Re-arming happens only through a *tracked* release:
from any dwell state, a tracked fingertip sample that misses all keys
resets the detector (including the emitted flag), and a subsequent fresh
continuous hold on `K` of at least the threshold emits `K` again.  (If
instead the hand leaves the frame entirely and returns directly to `K`,
the emitted flag survives and `K` is never re-emitted on that hold — see
the counterexample.) -/
theorem c5_release_rearms_amended (width height : ℕ) (K : String) (s : DwellState)
    (poff p1 : ℤ × ℤ) (toff t1 : ℚ) (tr : List ((ℤ × ℤ) × ℚ))
    (hoff : hitTest width height poff.1 poff.2 = none)
    (h1 : hitTest width height p1.1 p1.2 = some K) (ht1 : t1 ≠ 0)
    (htr : ∀ e ∈ tr, hitTest width height e.1.1 e.1.2 = some K) :
    (runDwell width height s
        ((HandInput.tip poff, toff) :: (HandInput.tip p1, t1)
          :: tr.map fun e => (HandInput.tip e.1, e.2))).2
      = if tr.any (fun e => decide ((3 : ℚ) ≤ e.2 - t1)) then [K] else [] := by
  have hstep : detect_key_press width height s (some poff) toff
      = (⟨none, none, false⟩, none) := by
    simp [detect_key_press, hoff, dwellStep_miss]
  have h := runDwell_fresh_hold width height K p1 t1 ⟨none, none, false⟩
    (by simp) h1 ht1 tr htr
  rw [runDwell_cons_tip, hstep]
  simp [h]

/-- Witness for the amended C5: from a state where `q` is already
confirmed, a tracked sample off all keys at time 6, then a fresh hold on
`q` from time 10 with a sample at time 20, emits `q` again. -/
theorem c5_release_rearms_witness :
    (runDwell 1280 720 ⟨some "q", some 1, true⟩
        [(HandInput.tip (0, 0), 6), (HandInput.tip (150, 400), 10),
         (HandInput.tip (150, 400), 20)]).2 = ["q"] := by
  have h := c5_release_rearms_amended 1280 720 "q" ⟨some "q", some 1, true⟩ (0, 0)
    (150, 400) 6 10 [((150, 400), 20)] (by decide) (by decide) (by norm_num)
    (by intro e he; fin_cases he; decide)
  exact h.trans (by norm_num [List.any_cons])

/-! ## Text-assembler lemmas -/

/-- A confirmed SPACE with a non-empty word and a clear `text_emitted`
flag appends the word to `sentence` with no separator, clears the word,
sets the flag and emits the word plus a literal space. -/
theorem handleKey_SE_commit (ts : TextState) (now : ℚ) (h1 : ts.current_word ≠ "")
    (h2 : ts.text_emitted = false) :
    handleKey ts "SE" now
      = (⟨"", ts.sentence ++ ts.current_word, ts.last_word_time, true⟩,
         [ts.current_word, " "]) := by
  simp only [handleKey]
  rw [if_pos trivial, if_pos ⟨h1, h2⟩]

/-- A confirmed SPACE with an empty word, or with `text_emitted` set, is a
complete no-op. -/
theorem handleKey_SE_skip (ts : TextState) (now : ℚ)
    (h : ts.current_word = "" ∨ ts.text_emitted = true) :
    handleKey ts "SE" now = (ts, []) := by
  simp only [handleKey]
  rw [if_pos trivial, if_neg ?_]
  rintro ⟨hc1, hc2⟩
  rcases h with h | h
  · exact hc1 h
  · rw [h] at hc2; exact absurd hc2 (by decide)

/-- A confirmed ENTER always leaves `sentence` empty. -/
theorem handleKey_ET_sentence (ts : TextState) (now : ℚ) :
    (handleKey ts "ET" now).1.sentence = "" := by
  simp only [handleKey]
  rw [if_neg (by decide : ¬("ET" = "SE")), if_pos trivial]
  split <;> rfl

/-- A confirmed ENTER always sets `text_emitted`. -/
theorem handleKey_ET_emitted (ts : TextState) (now : ℚ) :
    (handleKey ts "ET" now).1.text_emitted = true := by
  simp only [handleKey]
  rw [if_neg (by decide : ¬("ET" = "SE")), if_pos trivial]
  split <;> rfl

/-- A confirmed BACKSPACE with a non-empty word drops its last character,
sets `text_emitted` and emits a backspace event. -/
theorem handleKey_BC_word (ts : TextState) (now : ℚ) (h : ts.current_word ≠ "") :
    handleKey ts "BC" now
      = ({ ts with current_word := ts.current_word.dropRight 1, text_emitted := true },
         ["backspace"]) := by
  simp only [handleKey]
  rw [if_neg (by decide : ¬("BC" = "SE")), if_neg (by decide : ¬("BC" = "ET")),
    if_pos trivial, if_pos h]

/-- A confirmed BACKSPACE with an empty word and a sentence holding at
least one token removes the last token, rejoining the rest with single
spaces, and emits the updated sentence. -/
theorem handleKey_BC_sentence (ts : TextState) (now : ℚ) (h1 : ts.current_word = "")
    (h2 : ts.sentence ≠ "") (h3 : pySplit ts.sentence ≠ []) :
    handleKey ts "BC" now
      = ({ ts with
            sentence := String.intercalate " " (pySplit ts.sentence).dropLast,
            text_emitted := true },
         [String.intercalate " " (pySplit ts.sentence).dropLast]) := by
  simp only [handleKey]
  rw [if_neg (by decide : ¬("BC" = "SE")), if_neg (by decide : ¬("BC" = "ET")),
    if_pos trivial, if_neg (by simp [h1]), if_pos h2, if_pos h3]

/-- A confirmed BACKSPACE always sets `text_emitted`. -/
theorem handleKey_BC_emitted (ts : TextState) (now : ℚ) :
    (handleKey ts "BC" now).1.text_emitted = true := by
  simp only [handleKey]
  rw [if_neg (by decide : ¬("BC" = "SE")), if_neg (by decide : ¬("BC" = "ET")), if_pos trivial]
  split
  · rfl
  split
  · split <;> rfl
  · rfl

/-- A confirmed printable key appends its symbol to the word, refreshes
`last_word_time`, clears `text_emitted` and emits nothing. -/
theorem handleKey_printable (ts : TextState) (k : String) (now : ℚ)
    (h1 : k ≠ "SE") (h2 : k ≠ "ET") (h3 : k ≠ "BC") :
    handleKey ts k now
      = ({ ts with current_word := ts.current_word ++ k, last_word_time := now,
                   text_emitted := false }, []) := by
  simp only [handleKey]
  rw [if_neg h1, if_neg h2, if_neg h3]

/-- The SPACE branch sets `text_emitted` exactly when the flag was already
set or the word is non-empty; in particular SPACE on an empty word with a
clear flag leaves the flag clear. -/
theorem handleKey_SE_emitted (ts : TextState) (now : ℚ) :
    (handleKey ts "SE" now).1.text_emitted
      = (ts.text_emitted || decide (ts.current_word ≠ "")) := by
  by_cases h1 : ts.current_word = ""
  · rw [handleKey_SE_skip ts now (Or.inl h1)]
    simp [h1]
  · by_cases h2 : ts.text_emitted = false
    · rw [handleKey_SE_commit ts now h1 h2]
      simp [h1, h2]
    · have h2' : ts.text_emitted = true := by
        revert h2; cases ts.text_emitted <;> simp
      rw [handleKey_SE_skip ts now (Or.inr h2')]
      simp [h2']

/-- The inactivity check commits when the word is non-empty, more than 2
seconds have passed since `last_word_time`, and `text_emitted` is clear. -/
theorem inactivity_commit_eq (ts : TextState) (now : ℚ) (h1 : ts.current_word ≠ "")
    (h2 : 2 < now - ts.last_word_time) (h3 : ts.text_emitted = false) :
    inactivity_check ts now
      = (⟨"", ts.sentence ++ ts.current_word, ts.last_word_time, true⟩,
         [ts.current_word]) := by
  simp only [inactivity_check]
  rw [if_pos ⟨h1, h2, h3⟩]

/-- The inactivity check is a no-op whenever `text_emitted` is set. -/
theorem inactivity_skip_emitted (ts : TextState) (now : ℚ) (h : ts.text_emitted = true) :
    inactivity_check ts now = (ts, []) := by
  simp only [inactivity_check]
  rw [if_neg ?_]
  rintro ⟨-, -, hc⟩
  rw [h] at hc; exact absurd hc (by decide)

/-- If the inactivity check emitted anything, it set `text_emitted`. -/
theorem inactivity_emitted_of_commit (ts : TextState) (now : ℚ)
    (h : (inactivity_check ts now).2 ≠ []) :
    (inactivity_check ts now).1.text_emitted = true := by
  by_cases hc : ts.current_word ≠ "" ∧ 2 < now - ts.last_word_time ∧ ts.text_emitted = false
  · simp only [inactivity_check]
    rw [if_pos hc]
  · simp only [inactivity_check] at h ⊢
    rw [if_neg hc] at h
    exact absurd rfl h

/-- C2 counterexample.  With `current_word = "cat"` a confirmed SPACE
leaves `sentence = "cat"`, not `"cat "` as the claim states (no space is
appended to `sentence`; the space exists only as an emitted event); and
with `current_word = "cat"` but `text_emitted` set, SPACE is a no-op, so
the claim's two cases (driven by the word alone) are not exhaustive. -/
theorem c2_space_commit_cex :
    (handleKey ⟨"cat", "", 0, false⟩ "SE" 5).1.sentence = "cat" ∧
    ("cat" : String) ≠ "cat " ∧
    handleKey ⟨"cat", "old", 0, true⟩ "SE" 5 = (⟨"cat", "old", 0, true⟩, []) :=
  ⟨rfl, by decide, rfl⟩

/-- C2 (amended).  When SPACE is confirmed with `current_word` non-empty
*and* `text_emitted` clear, `current_word` is appended to `sentence` with
no separator, the word is cleared, the flag is set, and the word plus a
literal space are emitted as events; otherwise (empty word, or
`text_emitted` set) SPACE is a complete no-op. -/
theorem c2_space_commit_amended (ts : TextState) (now : ℚ) :
    (ts.current_word ≠ "" → ts.text_emitted = false →
      handleKey ts "SE" now
        = (⟨"", ts.sentence ++ ts.current_word, ts.last_word_time, true⟩,
           [ts.current_word, " "])) ∧
    ((ts.current_word = "" ∨ ts.text_emitted = true) →
      handleKey ts "SE" now = (ts, [])) :=
  ⟨fun h1 h2 => handleKey_SE_commit ts now h1 h2,
   fun h => handleKey_SE_skip ts now h⟩

/-- Witness for the amended C2: SPACE on `current_word = "cat"` commits,
and SPACE with `text_emitted` set is a no-op. -/
theorem c2_space_commit_witness :
    handleKey ⟨"cat", "", 7, false⟩ "SE" 9 = (⟨"", "cat", 7, true⟩, ["cat", " "]) ∧
    handleKey ⟨"dog", "", 7, true⟩ "SE" 9 = (⟨"dog", "", 7, true⟩, []) :=
  ⟨(c2_space_commit_amended ⟨"cat", "", 7, false⟩ 9).1 (by decide) rfl,
   (c2_space_commit_amended ⟨"dog", "", 7, true⟩ 9).2 (Or.inr rfl)⟩

/-- C4 counterexample.  A reachable scenario: typing `d`, `o`, `g` and
then BACKSPACE leaves `current_word = "do"` with `text_emitted` set; at
time 10 (7 seconds after the last edit, well past the 2-second window) the
inactivity check commits nothing — the word is neither appended to
`sentence` nor emitted, contradicting the claim's "regardless of which
key produced the last edit". -/
theorem c4_inactivity_commit_cex :
    (handleKey (handleKey (handleKey (handleKey initTextState "d" 1).1 "o" 2).1
        "g" 3).1 "BC" 4).1 = ⟨"do", "", 3, true⟩ ∧
    inactivity_check ⟨"do", "", 3, true⟩ 10 = (⟨"do", "", 3, true⟩, []) ∧
    (2 : ℚ) < 10 - 3 :=
  ⟨rfl, inactivity_skip_emitted ⟨"do", "", 3, true⟩ 10 rfl, by norm_num⟩

/-- C4 (amended).  The inactivity commit fires only when, in addition to
the claim's conditions (non-empty word, more than 2.0 seconds since the
last edit), the `text_emitted` flag is clear — i.e. the last confirmed key
was a printable one; after SPACE/ENTER/BACKSPACE the check is suppressed
until the next printable key. -/
theorem c4_inactivity_commit_amended (ts : TextState) (now : ℚ) :
    (ts.current_word ≠ "" → 2 < now - ts.last_word_time → ts.text_emitted = false →
      inactivity_check ts now
        = (⟨"", ts.sentence ++ ts.current_word, ts.last_word_time, true⟩,
           [ts.current_word])) ∧
    (ts.text_emitted = true → inactivity_check ts now = (ts, [])) :=
  ⟨fun h1 h2 h3 => inactivity_commit_eq ts now h1 h2 h3,
   fun h => inactivity_skip_emitted ts now h⟩

/-- Witness for the amended C4: `current_word = "dog"` typed last at time
3, checked at time 10 with the flag clear, commits and emits `dog`. -/
theorem c4_inactivity_commit_witness :
    inactivity_check ⟨"dog", "", 3, false⟩ 10 = (⟨"", "dog", 3, true⟩, ["dog"]) := by
  have h := (c4_inactivity_commit_amended ⟨"dog", "", 3, false⟩ 10).1
    (by decide) (by norm_num) rfl
  exact h

/-- C6 counterexample.  Typing `c`, `a`, `t`, SPACE, `d`, `o`, `g` and
letting the inactivity commit fire yields `sentence = "catdog"`: the two
committed words are concatenated with no separating space, so `sentence`
is not "committed words joined by single spaces" (`"cat dog"`). -/
theorem c6_sentence_join_cex :
    (handleKey (handleKey (handleKey (handleKey (handleKey (handleKey (handleKey
        initTextState "c" 1).1 "a" 2).1 "t" 3).1 "SE" 4).1 "d" 5).1 "o" 6).1
        "g" 7).1 = ⟨"dog", "cat", 7, false⟩ ∧
    (inactivity_check ⟨"dog", "cat", 7, false⟩ 10).1.sentence = "catdog" ∧
    ("catdog" : String) ≠ "cat dog" := by
  refine ⟨rfl, ?_, by decide⟩
  rw [inactivity_commit_eq ⟨"dog", "cat", 7, false⟩ 10 (by decide) (by norm_num) rfl]
  decide

/-- C6 (amended).  `sentence` accumulates committed words by plain
concatenation with no separator: the SPACE commit and the inactivity
commit both append `current_word` to `sentence` directly, and ENTER always
resets `sentence` to empty (newlines are emitted as events, never stored). -/
theorem c6_sentence_join_amended (ts : TextState) (now : ℚ) :
    (ts.current_word ≠ "" → ts.text_emitted = false →
      (handleKey ts "SE" now).1.sentence = ts.sentence ++ ts.current_word) ∧
    ((handleKey ts "ET" now).1.sentence = "") ∧
    (ts.current_word ≠ "" → 2 < now - ts.last_word_time → ts.text_emitted = false →
      (inactivity_check ts now).1.sentence = ts.sentence ++ ts.current_word) := by
  refine ⟨fun h1 h2 => ?_, handleKey_ET_sentence ts now, fun h1 h2 h3 => ?_⟩
  · rw [handleKey_SE_commit ts now h1 h2]
  · rw [inactivity_commit_eq ts now h1 h2 h3]

/-- Witness for the amended C6: committing `dog` after `cat` by SPACE
yields the concatenation `catdog`. -/
theorem c6_sentence_join_witness :
    (handleKey ⟨"dog", "cat", 0, false⟩ "SE" 1).1.sentence = "catdog" := by
  have h := (c6_sentence_join_amended ⟨"dog", "cat", 0, false⟩ 1).1 (by decide) rfl
  exact h.trans (by decide)

/-- C8.  A confirmed BACKSPACE with a non-empty `current_word` drops its
last character and emits a backspace event; with an empty word and a
sentence holding at least one whitespace-delimited token, it removes the
last token (rejoining the remainder with single spaces) and emits the
updated sentence. -/
theorem c8_backspace_cascade (ts : TextState) (now : ℚ) :
    (ts.current_word ≠ "" →
      handleKey ts "BC" now
        = ({ ts with current_word := ts.current_word.dropRight 1,
                     text_emitted := true },
           ["backspace"])) ∧
    (ts.current_word = "" → ts.sentence ≠ "" → pySplit ts.sentence ≠ [] →
      handleKey ts "BC" now
        = ({ ts with
              sentence := String.intercalate " " (pySplit ts.sentence).dropLast,
              text_emitted := true },
           [String.intercalate " " (pySplit ts.sentence).dropLast])) :=
  ⟨fun h => handleKey_BC_word ts now h,
   fun h1 h2 h3 => handleKey_BC_sentence ts now h1 h2 h3⟩

/-- Witness for C8: BACKSPACE drops the `i` of `hi`, and BACKSPACE with
`current_word = ""` and `sentence = "red blue"` leaves `sentence = "red"`
(the claim's cascading example). -/
theorem c8_backspace_cascade_witness :
    handleKey ⟨"hi", "", 0, false⟩ "BC" 0 = (⟨"h", "", 0, true⟩, ["backspace"]) ∧
    handleKey ⟨"", "red blue", 0, false⟩ "BC" 0 = (⟨"", "red", 0, true⟩, ["red"]) := by
  constructor
  · exact (c8_backspace_cascade ⟨"hi", "", 0, false⟩ 0).1 (by decide)
  · exact (c8_backspace_cascade ⟨"", "red blue", 0, false⟩ 0).2 rfl (by decide) (by decide)

/-- C10 counterexample.  A SPACE confirmation with an empty `current_word`
and a clear flag leaves `text_emitted = false`: contrary to the claim, not
every SPACE confirmation sets the flag. -/
theorem c10_text_emitted_cex :
    (handleKey ⟨"", "x", 0, false⟩ "SE" 1).1.text_emitted = false ∧
    handleKey ⟨"", "x", 0, false⟩ "SE" 1 = (⟨"", "x", 0, false⟩, []) :=
  ⟨rfl, rfl⟩

/-- C10 (amended).  ENTER and BACKSPACE confirmations always set
`text_emitted`, and an inactivity commit sets it; a SPACE confirmation
sets it exactly when the flag was already set or the word was non-empty
(so SPACE on an empty word with a clear flag leaves it clear).  While the
flag is set, SPACE commits and inactivity commits are no-ops; only a
printable-key confirmation clears the flag. -/
theorem c10_text_emitted_amended (ts : TextState) (now : ℚ) (k : String) :
    ((handleKey ts "ET" now).1.text_emitted = true) ∧
    ((handleKey ts "BC" now).1.text_emitted = true) ∧
    ((handleKey ts "SE" now).1.text_emitted
      = (ts.text_emitted || decide (ts.current_word ≠ ""))) ∧
    ((inactivity_check ts now).2 ≠ [] →
      (inactivity_check ts now).1.text_emitted = true) ∧
    (ts.text_emitted = true → handleKey ts "SE" now = (ts, [])) ∧
    (ts.text_emitted = true → inactivity_check ts now = (ts, [])) ∧
    (k ≠ "SE" → k ≠ "ET" → k ≠ "BC" → (handleKey ts k now).1.text_emitted = false) := by
  refine ⟨handleKey_ET_emitted ts now, handleKey_BC_emitted ts now,
    handleKey_SE_emitted ts now, inactivity_emitted_of_commit ts now,
    fun h => handleKey_SE_skip ts now (Or.inr h),
    fun h => inactivity_skip_emitted ts now h, fun h1 h2 h3 => ?_⟩
  rw [handleKey_printable ts k now h1 h2 h3]

/-- Witness for the amended C10 at a concrete state with the flag set:
SPACE and the inactivity check are no-ops, and a printable `a` clears the
flag. -/
theorem c10_text_emitted_witness :
    handleKey ⟨"w", "s", 0, true⟩ "SE" 2 = (⟨"w", "s", 0, true⟩, []) ∧
    inactivity_check ⟨"w", "s", 0, true⟩ 9 = (⟨"w", "s", 0, true⟩, []) ∧
    (handleKey ⟨"w", "s", 0, true⟩ "a" 2).1.text_emitted = false ∧
    (inactivity_check ⟨"dog", "", 3, false⟩ 10).1.text_emitted = true :=
  ⟨(c10_text_emitted_amended ⟨"w", "s", 0, true⟩ 2 "a").2.2.2.2.1 rfl,
   (c10_text_emitted_amended ⟨"w", "s", 0, true⟩ 9 "a").2.2.2.2.2.1 rfl,
   (c10_text_emitted_amended ⟨"w", "s", 0, true⟩ 2 "a").2.2.2.2.2.2
     (by decide) (by decide) (by decide) ▸ rfl,
   (c10_text_emitted_amended ⟨"dog", "", 3, false⟩ 10 "a").2.2.2.1
     (by
       rw [inactivity_commit_eq ⟨"dog", "", 3, false⟩ 10 (by decide) (by norm_num) rfl]
       decide)⟩

/-! ## Geometry lemmas -/

/-- Two integer cells of width `c ≥ 0` starting `a` and `b` cells from
`base` (with `a < b`), each shrunk by the 5-pixel inset and opened at the
left edge, cannot both strictly contain a point. -/
theorem cell_disjoint (base c : ℤ) (hc : 0 ≤ c) (a b : ℕ) (hab : a < b) (z : ℤ)
    (h1 : z < base + (a : ℤ) * c + c - 5) (h2 : base + (b : ℤ) * c < z) : False := by
  have hb : (a : ℤ) + 1 ≤ (b : ℤ) := by exact_mod_cast hab
  have h4 : ((a : ℤ) + 1) * c ≤ (b : ℤ) * c := mul_le_mul_of_nonneg_right hb hc
  have h5 : ((a : ℤ) + 1) * c = (a : ℤ) * c + c := by ring
  linarith

/-- C7 counterexample.  On a 1280×720 frame the rendered rectangle of the
double-width `SE` key (row 4, column 4) and that of its neighbour `ET`
(row 4, column 5) overlap: the point `(850, 650)` lies inside both drawn
rectangles, yet the hit test — which ignores the width multiplier —
resolves it to `ET`.  So the drawn key rectangles are not pairwise
disjoint and the point is not mapped to a unique rendered key. -/
theorem c7_no_overlap_cex :
    (create_keyboard_layout.get? 4).bind (fun r => r.get? 4) = some "SE" ∧
    (create_keyboard_layout.get? 4).bind (fun r => r.get? 5) = some "ET" ∧
    rectContains (drawRect 1280 720 7 4 4 "SE") 850 650 = true ∧
    rectContains (drawRect 1280 720 7 4 5 "ET") 850 650 = true ∧
    hitTest 1280 720 850 650 = some "ET" :=
  ⟨rfl, rfl, by decide, by decide, by decide⟩

/-- C7 (amended).  The *hit-test* rectangles — which apply the uniform
single-cell `key_width` with the 5-pixel inset to every key, ignoring the
draw-time width multipliers — are pairwise disjoint for every frame size:
no point can satisfy the containment test of two distinct key positions
(`rl`, `rl'` are the lengths of the rows involved; keys of one row share
its length).  The *drawn* rectangles of the double-width keys, by
contrast, overlap their neighbours (see the counterexample), so the hit
test is unambiguous but does not cover the full rendered area of a
double-width key. -/
theorem c7_no_overlap_amended (width height : ℕ) (x y : ℤ) (i j i' j' rl rl' : ℕ)
    (hrow : i = i' → rl = rl') (hne : i ≠ i' ∨ j ≠ j') :
    ¬(hitRegion width height rl i j x y = true ∧
      hitRegion width height rl' i' j' x y = true) := by
  rintro ⟨hA, hB⟩
  rw [hitRegion, decide_eq_true_eq] at hA hB
  obtain ⟨hA1, hA2, hA3, hA4⟩ := hA
  obtain ⟨hB1, hB2, hB3, hB4⟩ := hB
  have hkw : (0 : ℤ) ≤ (key_width width : ℤ) := Int.natCast_nonneg _
  have hkh : (0 : ℤ) ≤ (key_height height : ℤ) := Int.natCast_nonneg _
  by_cases hii : i = i'
  · subst hii
    have hrl : rl = rl' := hrow rfl
    subst hrl
    have hjj : j ≠ j' := hne.resolve_left fun h => h rfl
    rcases Nat.lt_or_ge j j' with h | h
    · exact cell_disjoint (rowStartX width rl) _ hkw j j' h x hA2 hB1
    · exact cell_disjoint (rowStartX width rl) _ hkw j' j
        (lt_of_le_of_ne h (Ne.symm hjj)) x hB2 hA1
  · rcases Nat.lt_or_ge i i' with h | h
    · exact cell_disjoint (keyboard_y height) _ hkh i i' h y hA4 hB3
    · exact cell_disjoint (keyboard_y height) _ hkh i' i
        (lt_of_le_of_ne h (Ne.symm hii)) y hB4 hA3

/-- Witness for the amended C7: the overlap point `(850, 650)` of the
drawn `SE`/`ET` rectangles does not lie in both *hit* regions. -/
theorem c7_no_overlap_witness :
    ¬(hitRegion 1280 720 7 4 4 850 650 = true ∧
      hitRegion 1280 720 7 4 5 850 650 = true) :=
  c7_no_overlap_amended 1280 720 850 650 4 4 4 5 7 7 (fun _ => rfl) (Or.inr (by decide))

/-! ## Run-loop lemmas -/

/-- Error and frame accounting for the `while self.running` loop: exactly
one error is emitted when the trace contains a failure (frame-read failure
or exception), none otherwise, and the frames processed are exactly the
successfully read frames before the first failure — nothing after a
failure is ever read. -/
theorem runLoop_errors_frames (width height : ℕ) (trace : List DevEvent) :
    ∀ (ds : DwellState) (ts : TextState),
    (runLoop width height ds ts trace).errors
        = (if trace.any (fun e => !e.isOk) then 1 else 0) ∧
    (runLoop width height ds ts trace).frames
        = (trace.takeWhile DevEvent.isOk).length := by
  induction trace with
  | nil => intro ds ts; simp [runLoop]
  | cons e rest ih =>
    intro ds ts
    cases e with
    | okFrame inp now =>
      have h := ih (loopIter width height ds ts inp now).1
        (loopIter width height ds ts inp now).2.1
      simp [runLoop, DevEvent.isOk, List.takeWhile, h.1, h.2]
    | readFail => simp [runLoop, DevEvent.isOk, List.takeWhile]
    | raiseExn => simp [runLoop, DevEvent.isOk, List.takeWhile]

/-- C9.  A camera-open failure or any device failure in the trace (frame
read failing, or an exception) produces exactly one error event, and no
failure produces none; the loop never reads past the first failure (no
retry: the frames processed are exactly the successful reads before it,
and a camera-open failure processes none); and on every exit path —
normal stop (trace exhausted), open failure, read failure, exception —
the camera handle is released and the landmark detector closed. -/
theorem c9_device_error_terminal (width height : ℕ) (openOk : Bool)
    (ds : DwellState) (ts : TextState) (trace : List DevEvent) :
    (runModel width height openOk ds ts trace).capReleased = true ∧
    (runModel width height openOk ds ts trace).handsClosed = true ∧
    (runModel width height openOk ds ts trace).errors
      = (if openOk = false ∨ trace.any (fun e => !e.isOk) then 1 else 0) ∧
    (runModel width height openOk ds ts trace).frames
      = (if openOk then (trace.takeWhile DevEvent.isOk).length else 0) := by
  cases openOk with
  | false => simp [runModel, finallyBlock]
  | true =>
    have h := runLoop_errors_frames width height trace ds ts
    simp [runModel, finallyBlock, h.1, h.2]

